import Mathlib

/-!
# Verification of the berryblast record store and extraction pipeline

Shallow embedding of `src/backend.py` (class `JobExtractor`): the tabular
record store (load-or-create with URL-column migration, append with
duplicate suppression, status update, row deletion, file-lock probing) and
the extraction pipeline's parse/fallback step and top-level result
contract.

Modelling conventions:
* A pandas `DataFrame` is a column-name list plus a list of rows (each row a
  list of cell strings, aligned with the columns).
* The file system is an `FsState`: the content of the single Excel file
  (absent, unreadable-as-a-table, or a table) plus whether an external
  program holds an exclusive lock.  The lock flag models a hold that lasts
  for the whole duration of one store operation, so a wait loop against a
  held file always times out and a wait against a free file never starts;
  `wait_for_file_unlock` is additionally modelled in full generality over a
  time-indexed lock schedule.
* Python `open(filepath, 'a')` in `is_file_locked` appends nothing, so it
  never changes the content of an existing file; on an absent path it
  creates an empty file, which is not readable as a table (modelled as
  `.corrupt`).
* `json.loads` plus dict field access is external library code; the parse
  step takes the parser as a function argument `String → Option JobInfo`.
* Python exceptions become `Except String` results; the exact message
  strings of the source are kept (apostrophes written as `\x27`).
* The call `datetime.now().strftime(...)` is passed in as the `now`
  argument.
-/

/-- A pandas DataFrame: column names and rows of cell strings. -/
structure DataFrame where
  cols : List String
  rows : List (List String)
deriving DecidableEq, Repr

/-- The content of the single Excel file at `self.excel_file`. -/
inductive FileContent where
  /-- No file: `os.path.exists` is false. -/
  | absent : FileContent
  /-- The file exists but `pd.read_excel` fails on it (e.g. an empty file). -/
  | corrupt : FileContent
  /-- The file exists and reads as this table. -/
  | table : DataFrame → FileContent
deriving DecidableEq, Repr

/-- File-system state: file content plus whether an external program holds
an exclusive lock for the duration of the operation. -/
structure FsState where
  file : FileContent
  locked : Bool
deriving DecidableEq, Repr

/-- Model of `os.path.exists(self.excel_file)`. -/
def fileExists : FileContent → Bool
  | .absent => false
  | _ => true

/-- The fixed file path `self.excel_file` (backend.py line 46). -/
def excelFile : String := "Summer2026_Applications.xlsx"

/-- The canonical column list created for a new file
(backend.py line 277). -/
def canonicalCols : List String :=
  ["Status", "Company", "Job Title", "Location", "Job Functions", "Date Applied", "URL"]

/-- Model of `JobExtractor.is_file_locked` (backend.py lines 201-216): try
to open the file in append mode; `PermissionError`/`IOError` means locked.
Append-mode open never changes an existing file's content, but creates an
empty file (not readable as a table) when the path does not exist. -/
def is_file_locked (fs : FsState) : Bool × FsState :=
  match fs.file with
  | .absent => (false, { fs with file := .corrupt })
  | _ => (fs.locked, fs)

/-- Loop body of `JobExtractor.wait_for_file_unlock` (backend.py lines
231-240), generalised over a time-indexed lock schedule `locked`:
`wait_time` starts at `t`, each iteration probes the lock, sleeps 2 seconds
and adds 2 to `wait_time`. -/
def waitAux (locked : Nat → Bool) (maxWait t : Nat) : Bool :=
  if t < maxWait then
    if locked t then waitAux locked maxWait (t + 2) else true
  else false
termination_by maxWait - t
decreasing_by omega

/-- Model of `JobExtractor.wait_for_file_unlock` (backend.py lines
218-240): poll `is_file_locked` every 2 seconds starting at time 0 until
`maxWait` elapses; return whether the file became available. -/
def wait_for_file_unlock (locked : Nat → Bool) (maxWait : Nat) : Bool :=
  waitAux locked maxWait 0

/-- Message of the `PermissionError` raised by `load_or_create_excel`
(backend.py line 255). -/
def lockedLoadMsg : String :=
  "Excel file \x27" ++ excelFile ++ "\x27 is locked. Please close it in Excel and try again."

/-- Message of the `PermissionError` raised by `append_to_excel`
(backend.py line 298). -/
def lockedAppendMsg : String :=
  "Cannot write to Excel file. Please close \x27" ++ excelFile ++ "\x27 in Excel and try again."

/-- The empty table created when the file is absent or unreadable
(backend.py lines 276-280). -/
def emptyDf : DataFrame := ⟨canonicalCols, []⟩

/-- Model of `JobExtractor.load_or_create_excel` (backend.py lines
242-280).  With the whole-operation lock model, a held file makes the
initial `wait_for_file_unlock` time out, raising `PermissionError`.
Otherwise: an existing table is returned as-is if it has a `URL` column,
and migrated (the column appended, populated with empty strings, and
persisted) if not; a file that cannot be parsed is logged and replaced in
memory by the empty canonical table without touching the disk; an absent
file likewise yields the empty canonical table. -/
def load_or_create_excel (fs : FsState) : Except String (DataFrame × FsState) :=
  if fileExists fs.file && fs.locked then .error lockedLoadMsg
  else
    match fs.file with
    | .table df =>
        if df.cols.contains ("URL") then .ok (df, fs)
        else
          let df2 : DataFrame := ⟨df.cols ++ ["URL"], df.rows.map (fun r => r ++ [""])⟩
          .ok (df2, { fs with file := .table df2 })
    | .corrupt => .ok (emptyDf, fs)
    | .absent => .ok (emptyDf, fs)

/-- The `job_info` dictionary handed to the store: each key either present
(`some`) or absent (`none`), mirroring Python `dict.get` with defaults. -/
structure JobInfo where
  status : Option String
  company_name : Option String
  position_title : Option String
  location : Option String
  job_functions : Option String
  date_applied : Option String
  url : Option String
deriving DecidableEq, Repr

/-- The `new_row` dictionary of `append_to_excel` (backend.py lines
304-312), as an association list in insertion order; `now` is the current
date string. -/
def newRowAssoc (now : String) (j : JobInfo) : List (String × String) :=
  [("Status", j.status.getD ("Applied")),
   ("Company", j.company_name.getD ("")),
   ("Job Title", j.position_title.getD ("")),
   ("Location", j.location.getD ("")),
   ("Job Functions", j.job_functions.getD ("")),
   ("Date Applied", j.date_applied.getD now),
   ("URL", j.url.getD (""))]

/-- Position of a column label in a column list
(`df.columns.get_loc` and column membership order). -/
def colIdx : List String → String → Option Nat
  | [], _ => none
  | c :: cs, key => if c = key then some 0 else (colIdx cs key).map (· + 1)

/-- Model of `pd.concat([df, pd.DataFrame([new_row])], ignore_index=True)`
(backend.py line 326): columns are the union (the table's first, then the
dict's new keys in order); old rows get `NaN` in new columns, the new row
gets the dict's value per column and `NaN` where the dict has no key. -/
def concatRow (df : DataFrame) (assoc : List (String × String)) : DataFrame :=
  let newCols := (assoc.map Prod.fst).filter (fun k => !df.cols.contains k)
  let cols := df.cols ++ newCols
  ⟨cols,
   df.rows.map (fun r => r ++ newCols.map (fun _ => "NaN"))
     ++ [cols.map (fun c => (assoc.lookup c).getD ("NaN"))]⟩

/-- Model of `JobExtractor.append_to_excel` (backend.py lines 282-349):
lock gate, reload via `load_or_create_excel`, build `new_row`, reject as a
duplicate when a non-empty table with `Company` and `Job Title` columns
already holds a row matching the incoming record on those two fields, else
append the row and persist.  With the whole-operation lock model the first
`df.to_excel` attempt of the retry loop succeeds. -/
def append_to_excel (now : String) (j : JobInfo) (fs : FsState) :
    Except String (Bool × FsState) :=
  if fileExists fs.file && fs.locked then .error lockedAppendMsg
  else
    match load_or_create_excel fs with
    | .error e => .error e
    | .ok (df, fs1) =>
        let dup : Bool :=
          !df.rows.isEmpty && df.cols.contains ("Company") && df.cols.contains ("Job Title") &&
          (match colIdx df.cols ("Company"), colIdx df.cols ("Job Title") with
           | some ic, some it =>
               df.rows.any (fun r =>
                 r.getD ic ("") == j.company_name.getD ("") &&
                 r.getD it ("") == j.position_title.getD (""))
           | _, _ => false)
        if dup then .ok (false, fs1)
        else
          let df2 := concatRow df (newRowAssoc now j)
          .ok (true, { fs1 with file := .table df2 })

/-- Result dictionary of `update_row_status` and `delete_row`. -/
structure OpResult where
  success : Bool
  message : String
deriving DecidableEq, Repr

/-- Locked-file message of `update_row_status` and `delete_row`
(backend.py lines 401 and 445). -/
def lockedOpMsg : String := "Excel file is locked. Please close it and try again."

/-- Empty-table message of `update_row_status` and `delete_row`
(backend.py lines 407 and 451). -/
def noDataMsg : String := "No data found in Excel file."

/-- Out-of-range message of `update_row_status` and `delete_row`
(backend.py lines 410 and 454). -/
def rangeMsg (n : Int) (count : Nat) : String :=
  "Row number " ++ toString n ++ " is out of range. Valid range: 1-" ++ toString count

/-- Model of `Series.get(key, default)` on one row (`row_info.get` in
`delete_row`): the cell under the column when the column exists, else the
default. -/
def seriesGet (cols : List String) (row : List String) (key dflt : String) : String :=
  match colIdx cols key with
  | some i => row.getD i dflt
  | none => dflt

/-- Model of `JobExtractor.update_row_status` (backend.py lines 386-429):
lock probe (note: no `os.path.exists` guard, so the probe itself can create
an empty file), reload, empty-table check, 1-based range check, then
overwrite only the `Status` cell of the chosen row and persist.  An
exception inside the `try` (a missing `Status` column) becomes a
failure result carrying the exception text. -/
def update_row_status (fs : FsState) (n : Int) (newStatus : String) :
    OpResult × FsState :=
  let p := is_file_locked fs
  if p.1 then ({ success := false, message := lockedOpMsg }, p.2)
  else
    match load_or_create_excel p.2 with
    | .error e =>
        ({ success := false, message := "Failed to update row status: " ++ e }, p.2)
    | .ok (df, fs1) =>
        if df.rows.isEmpty then ({ success := false, message := noDataMsg }, fs1)
        else if n < 1 || n > (df.rows.length : Int) then
          ({ success := false, message := rangeMsg n df.rows.length }, fs1)
        else
          match colIdx df.cols ("Status") with
          | none =>
              ({ success := false, message := "Failed to update row status: \x27Status\x27" }, fs1)
          | some si =>
              let k := (n - 1).toNat
              let df2 : DataFrame := ⟨df.cols, df.rows.set k ((df.rows.getD k []).set si newStatus)⟩
              ({ success := true,
                 message := "Row " ++ toString n ++ " status updated to \x27" ++ newStatus ++ "\x27" },
               { fs1 with file := .table df2 })

/-- Model of `JobExtractor.delete_row` (backend.py lines 431-478): lock
probe (again without an existence guard), reload, empty-table check, range
check, read the doomed row's `Company` and `Job Title` cells for the
confirmation message, drop the row (compacting indices) and persist. -/
def delete_row (fs : FsState) (n : Int) : OpResult × FsState :=
  let p := is_file_locked fs
  if p.1 then ({ success := false, message := lockedOpMsg }, p.2)
  else
    match load_or_create_excel p.2 with
    | .error e =>
        ({ success := false, message := "Failed to delete row: " ++ e }, p.2)
    | .ok (df, fs1) =>
        if df.rows.isEmpty then ({ success := false, message := noDataMsg }, fs1)
        else if n < 1 || n > (df.rows.length : Int) then
          ({ success := false, message := rangeMsg n df.rows.length }, fs1)
        else
          let k := (n - 1).toNat
          let row := df.rows.getD k []
          let company := seriesGet df.cols row ("Company") (seriesGet df.cols row ("Company Name") ("Unknown"))
          let jobTitle := seriesGet df.cols row ("Job Title") (seriesGet df.cols row ("Position Title") ("Unknown"))
          let df2 : DataFrame := ⟨df.cols, df.rows.eraseIdx k⟩
          ({ success := true,
             message := "Deleted row " ++ toString n ++ ": " ++ company ++ " - " ++ jobTitle },
           { fs1 with file := .table df2 })

/-- Model of `JobExtractor.fallback_extraction` (backend.py lines 181-199):
the deterministic record returned when JSON parsing fails; both arguments
are ignored by the source and no `url` key is produced. -/
def fallback_extraction (now _url _response_text : String) : JobInfo :=
  { status := some ("Applied"),
    company_name := some ("Could not extract"),
    position_title := some ("Could not extract"),
    location := some ("Could not extract"),
    job_functions := some ("Could not extract"),
    date_applied := some now,
    url := none }

/-- Markdown-fence stripping of `extract_job_info` (backend.py lines
159-164): strip whitespace, drop a leading json code-fence opener (7
characters), drop a trailing three-backtick fence, strip again. -/
def stripFences (s : String) : String :=
  let t := s.trim
  let t := if t.startsWith ("\x60\x60\x60json") then t.drop 7 else t
  let t := if t.endsWith ("\x60\x60\x60") then t.dropRight 3 else t
  t.trim

/-- Parse step of `extract_job_info` (backend.py lines 156-175): strip
fences, run the JSON parser (`json.loads`, passed in as `parseJson`); on a
decode error return `fallback_extraction` instead of failing. -/
def parseModelOutput (parseJson : String → Option JobInfo)
    (now url responseText : String) : JobInfo :=
  match parseJson (stripFences responseText) with
  | some ji => ji
  | none => fallback_extraction now url responseText

/-- Result dictionary of `process_job_url`; `error` is `some` exactly when
the source puts an `error` key in the dictionary. -/
structure ProcessResult where
  success : Bool
  job_info : Option JobInfo
  message : String
  error : Option String
deriving DecidableEq, Repr

/-- Model of `JobExtractor.process_job_url` (backend.py lines 351-384):
the outcome of `extract_job_info` (network and model call, external) is
passed in as `extractOutcome`; on success the input URL is attached to the
record (Python `url if url else ""`) and `append_to_excel` runs; the
store's added flag becomes `success` with an "already exists" message on
duplicate; any exception from extraction or the store is caught at this
boundary and converted into a failure result carrying the `error` field,
so the function is total and never propagates an exception. -/
def process_job_url (extractOutcome : Except String JobInfo)
    (url now : String) (fs : FsState) : ProcessResult × FsState :=
  match extractOutcome with
  | .error e =>
      ({ success := false, job_info := none,
         message := "Failed to process job URL", error := some e }, fs)
  | .ok ji0 =>
      let ji := { ji0 with url := some (if url.isEmpty then ("") else url) }
      match append_to_excel now ji fs with
      | .error e =>
          ({ success := false, job_info := none,
             message := "Failed to process job URL", error := some e }, fs)
      | .ok (b, fs2) =>
          ({ success := b, job_info := some ji,
             message := if b then ("Job information extracted and added to spreadsheet")
                        else ("URL already exists in spreadsheet"),
             error := none }, fs2)

/-- A concrete one-row canonical table, used to instantiate theorems. -/
def dfAcme : DataFrame :=
  ⟨canonicalCols,
   [["Applied", "Acme", "Engineer", "Remote", "Backend", "2025-01-01", "https://acme.example/job"]]⟩

/-- A concrete two-row canonical table, used to instantiate theorems. -/
def dfTwo : DataFrame :=
  ⟨canonicalCols,
   [["Applied", "Acme", "Engineer", "Remote", "Backend", "2025-01-01", "https://acme.example/job"],
    ["Waiting", "Globex", "Analyst", "NYC", "Data", "2025-02-02", ""]]⟩

/-- A concrete record with all seven keys present, used to instantiate
theorems. -/
def jAcme : JobInfo :=
  ⟨some ("Applied"), some ("Acme"), some ("Engineer"), some ("Remote"),
   some ("Backend"), some ("2025-01-01"), some ("https://acme.example/job")⟩

/-! ## Helper lemmas -/

theorem contains_append_self (l : List String) (a : String) :
    (l ++ [a]).contains a = true := by
  induction l with
  | nil => simp
  | cons x xs ih => simp_all [List.contains]

theorem load_ok_hasURL (df : DataFrame) (h : ("URL") ∈ df.cols) :
    load_or_create_excel ⟨.table df, false⟩ = .ok (df, ⟨.table df, false⟩) := by
  simp [load_or_create_excel, fileExists, h]

theorem load_ok_canonical (df : DataFrame) (h : df.cols = canonicalCols) :
    load_or_create_excel ⟨.table df, false⟩ = .ok (df, ⟨.table df, false⟩) := by
  apply load_ok_hasURL
  rw [h]
  decide

theorem concatRow_canonical (df : DataFrame) (now : String) (j : JobInfo)
    (h : df.cols = canonicalCols) :
    concatRow df (newRowAssoc now j) =
      ⟨canonicalCols,
       df.rows ++
         [[j.status.getD ("Applied"), j.company_name.getD (""), j.position_title.getD (""),
           j.location.getD (""), j.job_functions.getD (""), j.date_applied.getD now,
           j.url.getD ("")]]⟩ := by
  obtain ⟨cols, rows⟩ := df
  simp only at h
  subst h
  simp [concatRow, newRowAssoc, canonicalCols, List.lookup]

theorem append_ok_true_shape (df : DataFrame) (now : String) (j : JobInfo) (fs1 : FsState)
    (hcols : df.cols = canonicalCols)
    (h1 : append_to_excel now j ⟨.table df, false⟩ = .ok (true, fs1)) :
    fs1 = ⟨.table ⟨canonicalCols,
      df.rows ++
        [[j.status.getD ("Applied"), j.company_name.getD (""), j.position_title.getD (""),
          j.location.getD (""), j.job_functions.getD (""), j.date_applied.getD now,
          j.url.getD ("")]]⟩, false⟩ := by
  rw [append_to_excel, load_ok_canonical df hcols] at h1
  simp only [Bool.and_false, Bool.false_eq_true, if_false] at h1
  rw [concatRow_canonical df now j hcols] at h1
  split at h1
  · simp at h1
  · simp only [Except.ok.injEq, Prod.mk.injEq, true_and] at h1
    exact h1.symm

theorem getD_set_ne {α : Type} (l : List α) (k i : Nat) (x : α) (d : α) (h : i ≠ k) :
    (l.set k x).getD i d = l.getD i d := by
  induction l generalizing k i with
  | nil => simp
  | cons a as ih =>
      cases k with
      | zero => cases i with
          | zero => exact absurd rfl h
          | succ i => simp [List.getD]
      | succ k => cases i with
          | zero => simp [List.getD]
          | succ i => simpa [List.getD] using ih k i (by omega)

theorem getD_eraseIdx_lt {α : Type} (l : List α) (k i : Nat) (d : α) (h : i < k) :
    (l.eraseIdx k).getD i d = l.getD i d := by
  induction l generalizing k i with
  | nil => simp
  | cons a as ih =>
      cases k with
      | zero => omega
      | succ k => cases i with
          | zero => simp [List.getD]
          | succ i => simpa [List.getD] using ih k i (by omega)

theorem getD_eraseIdx_ge {α : Type} (l : List α) (k i : Nat) (d : α) (h : k ≤ i) :
    (l.eraseIdx k).getD i d = l.getD (i + 1) d := by
  induction l generalizing k i with
  | nil => simp
  | cons a as ih =>
      cases k with
      | zero => simp [List.getD]
      | succ k => cases i with
          | zero => omega
          | succ i => simpa [List.getD] using ih k i (by omega)

theorem waitAux_true_iff (locked : Nat → Bool) (maxWait : Nat) :
    ∀ k t, maxWait - t ≤ k → t % 2 = 0 →
      (waitAux locked maxWait t = true ↔
        ∃ u, t ≤ u ∧ u < maxWait ∧ u % 2 = 0 ∧ locked u = false) := by
  intro k
  induction k with
  | zero =>
      intro t hk ht
      rw [waitAux]
      have hge : ¬ t < maxWait := by omega
      simp only [hge, if_false]
      constructor
      · intro h; exact absurd h (by simp)
      · rintro ⟨u, htu, hu, -, -⟩; omega
  | succ k ih =>
      intro t hk ht
      rw [waitAux]
      by_cases hlt : t < maxWait
      · simp only [hlt, if_true]
        cases hl : locked t with
        | false =>
            simp only [hl, Bool.false_eq_true, if_false]
            constructor
            · intro _; exact ⟨t, le_refl t, hlt, ht, hl⟩
            · intro _; trivial
        | true =>
            simp only [hl, if_true]
            rw [ih (t + 2) (by omega) (by omega)]
            constructor
            · rintro ⟨u, htu, hu, hue, hul⟩
              exact ⟨u, by omega, hu, hue, hul⟩
            · rintro ⟨u, htu, hu, hue, hul⟩
              refine ⟨u, ?_, hu, hue, hul⟩
              have hne : u ≠ t := by
                intro h; rw [h] at hul; rw [hl] at hul; exact absurd hul (by decide)
              omega
      · simp only [hlt, if_false]
        constructor
        · intro h; exact absurd h (by simp)
        · rintro ⟨u, htu, hu, -, -⟩; omega

theorem wait_true_iff (locked : Nat → Bool) (maxWait : Nat) :
    wait_for_file_unlock locked maxWait = true ↔
      ∃ t, t < maxWait ∧ t % 2 = 0 ∧ locked t = false := by
  rw [wait_for_file_unlock, waitAux_true_iff locked maxWait maxWait 0 (by omega) rfl]
  constructor
  · rintro ⟨u, -, hu, hue, hul⟩; exact ⟨u, hu, hue, hul⟩
  · rintro ⟨u, hu, hue, hul⟩; exact ⟨u, Nat.zero_le u, hu, hue, hul⟩

/-! ## Claim theorems -/

/-- C3: `load_or_create_excel` never fails on corrupt file content.  For
every file-system state whose existing file cannot be parsed as a table,
an unlocked load returns the empty table with the canonical seven columns
and leaves the on-disk file untouched (the returned state is the input
state); and the only error any `load_or_create_excel` call raises is the
lock timeout (a held existing file), with its lock message. -/
theorem load_corrupt_recovers (fs : FsState) (hf : fs.file = .corrupt) :
    (fs.locked = false → load_or_create_excel fs = .ok (emptyDf, fs)) ∧
    (fs.locked = true → load_or_create_excel fs = .error lockedLoadMsg) ∧
    emptyDf.cols = canonicalCols ∧
    (∀ (fs2 : FsState) (e : String), load_or_create_excel fs2 = .error e →
      fs2.locked = true ∧ fileExists fs2.file = true ∧ e = lockedLoadMsg) := by
  refine ⟨?_, ?_, rfl, ?_⟩
  · intro hl
    simp [load_or_create_excel, hf, hl, fileExists]
  · intro hl
    simp [load_or_create_excel, hf, hl, fileExists]
  · intro fs2 e h
    rw [load_or_create_excel] at h
    by_cases hg : (fileExists fs2.file && fs2.locked) = true
    · rw [if_pos hg] at h
      simp only [Except.error.injEq] at h
      simp only [Bool.and_eq_true] at hg
      exact ⟨hg.2, hg.1, h.symm⟩
    · rw [if_neg hg] at h
      split at h
      · split at h <;> simp at h
      · simp at h
      · simp at h

/-- C3 witness: a concrete unlocked corrupt file loads as the empty
canonical table with the state unchanged. -/
theorem load_corrupt_recovers_witness :
    load_or_create_excel ⟨.corrupt, false⟩ = .ok (emptyDf, ⟨.corrupt, false⟩) :=
  (load_corrupt_recovers ⟨.corrupt, false⟩ rfl).1 rfl

/-- C4: for every model output that is not valid JSON after fence
stripping, extraction does not fail: it returns the deterministic fallback
record whose four descriptive fields all equal the literal
"Could not extract", with status "Applied" and `date_applied` the current
date (and no url key). -/
theorem parse_failure_gives_fallback (parseJson : String → Option JobInfo)
    (now url t : String) (h : parseJson (stripFences t) = none) :
    parseModelOutput parseJson now url t =
      { status := some ("Applied"), company_name := some ("Could not extract"),
        position_title := some ("Could not extract"), location := some ("Could not extract"),
        job_functions := some ("Could not extract"), date_applied := some now, url := none } := by
  rw [parseModelOutput, h]
  rfl

/-- C4 witness: plain prose parses to the fallback record. -/
theorem parse_failure_gives_fallback_witness :
    parseModelOutput (fun _ => none) ("2025-06-01") ("https://jobs.example") ("plain prose, not JSON") =
      { status := some ("Applied"), company_name := some ("Could not extract"),
        position_title := some ("Could not extract"), location := some ("Could not extract"),
        job_functions := some ("Could not extract"), date_applied := some ("2025-06-01"),
        url := none } :=
  parse_failure_gives_fallback (fun _ => none) ("2025-06-01") ("https://jobs.example")
    ("plain prose, not JSON") rfl

/-- C5: `process_job_url` always returns a structured result (it is a total
function; every exception from extraction or the store is converted into a
result), and its two `success = false` cases stay distinguishable: a
pipeline-level failure carries a populated `error` field, while duplicate
suppression carries no `error` field and the specific already-exists
message. -/
theorem process_result_contract (ex : Except String JobInfo) (url now : String) (fs : FsState) :
    (∀ e, ex = .error e →
        process_job_url ex url now fs =
          ({ success := false, job_info := none,
             message := "Failed to process job URL", error := some e }, fs)) ∧
    (∀ ji e, ex = .ok ji →
        append_to_excel now { ji with url := some (if url.isEmpty then ("") else url) } fs = .error e →
        process_job_url ex url now fs =
          ({ success := false, job_info := none,
             message := "Failed to process job URL", error := some e }, fs)) ∧
    (∀ ji fs2, ex = .ok ji →
        append_to_excel now { ji with url := some (if url.isEmpty then ("") else url) } fs = .ok (false, fs2) →
        process_job_url ex url now fs =
          ({ success := false,
             job_info := some { ji with url := some (if url.isEmpty then ("") else url) },
             message := "URL already exists in spreadsheet", error := none }, fs2)) ∧
    (∀ ji fs2, ex = .ok ji →
        append_to_excel now { ji with url := some (if url.isEmpty then ("") else url) } fs = .ok (true, fs2) →
        process_job_url ex url now fs =
          ({ success := true,
             job_info := some { ji with url := some (if url.isEmpty then ("") else url) },
             message := "Job information extracted and added to spreadsheet", error := none }, fs2)) := by
  refine ⟨?_, ?_, ?_, ?_⟩
  · intro e he
    subst he
    rfl
  · intro ji e he ha
    subst he
    rw [process_job_url, ha]
  · intro ji fs2 he ha
    subst he
    rw [process_job_url, ha]
    rfl
  · intro ji fs2 he ha
    subst he
    rw [process_job_url, ha]
    rfl

/-- C5 witness: a concrete pipeline failure carries the error cause, and a
concrete duplicate suppression returns no error with the already-exists
message. -/
theorem process_result_contract_witness :
    process_job_url (.error ("boom")) ("https://x") ("2025-03-03") ⟨.table dfAcme, false⟩ =
      ({ success := false, job_info := none,
         message := "Failed to process job URL", error := some ("boom") }, ⟨.table dfAcme, false⟩) ∧
    process_job_url (.ok jAcme) ("https://other") ("2025-03-03") ⟨.table dfAcme, false⟩ =
      ({ success := false,
         job_info := some { jAcme with url := some ("https://other") },
         message := "URL already exists in spreadsheet", error := none }, ⟨.table dfAcme, false⟩) := by
  constructor
  · exact (process_result_contract (.error ("boom")) ("https://x") ("2025-03-03")
      ⟨.table dfAcme, false⟩).1 ("boom") rfl
  · exact (process_result_contract (.ok jAcme) ("https://other") ("2025-03-03")
      ⟨.table dfAcme, false⟩).2.2.1 jAcme ⟨.table dfAcme, false⟩ rfl rfl

/-- C1: duplicate suppression.  For every canonical table and records r1,
r2 with identical (company, title) — and arbitrary, possibly different,
urls, showing url plays no part in the identity check — after an append of
r1 succeeded, appending r2 returns added = false and performs no write:
the file-system state is exactly the one left by the first append, so the
row count is unchanged. -/
theorem append_duplicate_suppressed (df : DataFrame) (now1 now2 : String)
    (r1 r2 : JobInfo) (fs1 : FsState)
    (hcols : df.cols = canonicalCols)
    (hco : r2.company_name.getD ("") = r1.company_name.getD (""))
    (hti : r2.position_title.getD ("") = r1.position_title.getD (""))
    (h1 : append_to_excel now1 r1 ⟨.table df, false⟩ = .ok (true, fs1)) :
    append_to_excel now2 r2 fs1 = .ok (false, fs1) := by
  have hshape := append_ok_true_shape df now1 r1 fs1 hcols h1
  subst hshape
  rw [append_to_excel]
  rw [load_ok_canonical _ rfl]
  simp only [Bool.and_false, Bool.false_eq_true, if_false]
  simp [List.any_append, List.getD, canonicalCols, colIdx]
  intro _
  exact ⟨hco.symm, hti.symm⟩

/-- C1 witness: the Acme record appended to the empty table succeeds and
yields the one-row table; re-appending the same (company, title) with a
different url and date is rejected with no write. -/
theorem append_duplicate_suppressed_witness :
    append_to_excel ("2025-02-02") { jAcme with url := some ("https://elsewhere") }
      ⟨.table dfAcme, false⟩ = .ok (false, ⟨.table dfAcme, false⟩) :=
  append_duplicate_suppressed emptyDf ("2025-01-01") ("2025-02-02") jAcme
    { jAcme with url := some ("https://elsewhere") } ⟨.table dfAcme, false⟩
    rfl rfl rfl (by rfl)

/-- C6: round trip.  For every canonical table and every record whose seven
fields are all present (including an empty url), a successful append
followed by a reload yields a table whose last row's seven cells are
string-equal to the record's fields exactly. -/
theorem append_reload_round_trip (df : DataFrame) (now st co ti lo jf da u : String)
    (fs1 : FsState) (hcols : df.cols = canonicalCols)
    (h1 : append_to_excel now
        ⟨some st, some co, some ti, some lo, some jf, some da, some u⟩
        ⟨.table df, false⟩ = .ok (true, fs1)) :
    ∃ df2 : DataFrame, load_or_create_excel fs1 = .ok (df2, fs1) ∧
      df2.cols = canonicalCols ∧
      df2.rows.getLast? = some [st, co, ti, lo, jf, da, u] := by
  have hshape := append_ok_true_shape df now _ fs1 hcols h1
  subst hshape
  refine ⟨_, load_ok_canonical _ rfl, rfl, ?_⟩
  simp [List.getLast?_concat, Option.getD]

/-- C6 witness: appending a record with an empty url to the empty table and
reloading yields exactly that row last. -/
theorem append_reload_round_trip_witness :
    ∃ df2 : DataFrame,
      load_or_create_excel
        ⟨.table ⟨canonicalCols, [["Waiting", "Initech", "Intern", "Austin", "QA", "2025-04-04", ""]]⟩,
         false⟩ = .ok (df2,
        ⟨.table ⟨canonicalCols, [["Waiting", "Initech", "Intern", "Austin", "QA", "2025-04-04", ""]]⟩,
         false⟩) ∧
      df2.cols = canonicalCols ∧
      df2.rows.getLast? = some ["Waiting", "Initech", "Intern", "Austin", "QA", "2025-04-04", ""] :=
  append_reload_round_trip emptyDf ("2025-04-04") ("Waiting") ("Initech") ("Intern")
    ("Austin") ("QA") ("2025-04-04") ("")
    ⟨.table ⟨canonicalCols, [["Waiting", "Initech", "Intern", "Austin", "QA", "2025-04-04", ""]]⟩, false⟩
    rfl (by rfl)

/-- C10: default filling.  For every record dictionary, a successful append
persists exactly one new last row whose cells are the record's values with
missing keys replaced by the fixed defaults: status "Applied",
date_applied the current date, and empty strings for company, title,
location, functions and url; so no stored cell is a null originating from
an absent key. -/
theorem append_fills_missing_keys (df : DataFrame) (now : String) (j : JobInfo)
    (fs1 : FsState) (hcols : df.cols = canonicalCols)
    (h1 : append_to_excel now j ⟨.table df, false⟩ = .ok (true, fs1)) :
    fs1 = ⟨.table ⟨canonicalCols,
      df.rows ++
        [[j.status.getD ("Applied"), j.company_name.getD (""), j.position_title.getD (""),
          j.location.getD (""), j.job_functions.getD (""), j.date_applied.getD now,
          j.url.getD ("")]]⟩, false⟩ :=
  append_ok_true_shape df now j fs1 hcols h1

/-- C10 witness: the fallback record, which carries no url key, persists
with an empty-string URL cell (and its other cells as produced by
`fallback_extraction`). -/
theorem append_fills_missing_keys_witness :
    (⟨.table ⟨canonicalCols,
       [["Applied", "Could not extract", "Could not extract", "Could not extract",
         "Could not extract", "2025-01-01", ""]]⟩, false⟩ : FsState) =
      ⟨.table ⟨canonicalCols,
        emptyDf.rows ++
          [[(fallback_extraction ("2025-01-01") ("u") ("r")).status.getD ("Applied"),
            (fallback_extraction ("2025-01-01") ("u") ("r")).company_name.getD (""),
            (fallback_extraction ("2025-01-01") ("u") ("r")).position_title.getD (""),
            (fallback_extraction ("2025-01-01") ("u") ("r")).location.getD (""),
            (fallback_extraction ("2025-01-01") ("u") ("r")).job_functions.getD (""),
            (fallback_extraction ("2025-01-01") ("u") ("r")).date_applied.getD ("2025-01-01"),
            (fallback_extraction ("2025-01-01") ("u") ("r")).url.getD ("")]]⟩, false⟩ :=
  append_fills_missing_keys emptyDf ("2025-01-01") (fallback_extraction ("2025-01-01") ("u") ("r"))
    ⟨.table ⟨canonicalCols,
      [["Applied", "Could not extract", "Could not extract", "Could not extract",
        "Could not extract", "2025-01-01", ""]]⟩, false⟩ rfl (by rfl)

/-- C7: idempotent migration.  For every unlocked file whose table lacks
the URL column, the first `load_or_create_excel` appends the URL column
exactly once, populated with empty strings, and persists the migrated
shape before returning (the returned state holds the migrated table); a
second and a third load return the same table and state unchanged, so they
are no-ops with respect to the column set. -/
theorem migration_idempotent (df : DataFrame) (hm : ("URL") ∉ df.cols) :
    load_or_create_excel ⟨.table df, false⟩ =
      .ok (⟨df.cols ++ ["URL"], df.rows.map (fun r => r ++ [""])⟩,
           ⟨.table ⟨df.cols ++ ["URL"], df.rows.map (fun r => r ++ [""])⟩, false⟩) ∧
    load_or_create_excel ⟨.table ⟨df.cols ++ ["URL"], df.rows.map (fun r => r ++ [""])⟩, false⟩ =
      .ok (⟨df.cols ++ ["URL"], df.rows.map (fun r => r ++ [""])⟩,
           ⟨.table ⟨df.cols ++ ["URL"], df.rows.map (fun r => r ++ [""])⟩, false⟩) := by
  constructor
  · rw [load_or_create_excel]
    simp only [Bool.and_false, Bool.false_eq_true, if_false]
    have hc : df.cols.contains ("URL") = false := by
      simp [List.contains, hm]
    simp [hc]
    intro h
    exact absurd h hm
  · exact load_ok_hasURL _ (by simp)

/-- C7 witness: a two-column table without URL migrates once and the second
load is a no-op. -/
theorem migration_idempotent_witness :
    load_or_create_excel ⟨.table ⟨["Status", "Company"], [["Applied", "Acme"]]⟩, false⟩ =
      .ok (⟨["Status", "Company"] ++ ["URL"],
            [["Applied", "Acme"]].map (fun r => r ++ [""])⟩,
           ⟨.table ⟨["Status", "Company"] ++ ["URL"],
             [["Applied", "Acme"]].map (fun r => r ++ [""])⟩, false⟩) ∧
    load_or_create_excel
        ⟨.table ⟨["Status", "Company"] ++ ["URL"],
          [["Applied", "Acme"]].map (fun r => r ++ [""])⟩, false⟩ =
      .ok (⟨["Status", "Company"] ++ ["URL"],
            [["Applied", "Acme"]].map (fun r => r ++ [""])⟩,
           ⟨.table ⟨["Status", "Company"] ++ ["URL"],
             [["Applied", "Acme"]].map (fun r => r ++ [""])⟩, false⟩) :=
  migration_idempotent ⟨["Status", "Company"], [["Applied", "Acme"]]⟩ (by decide)

/-- C2 counterexample: on the empty table, `update_row_status 1` fails with
the message "No data found in Excel file.", which is not the out-of-range
message stating the valid range — refuting the claim that any n on the
empty table yields a RowOutOfRange result whose message states the valid
range. -/
theorem range_validation_counterexample :
    (update_row_status ⟨.table emptyDf, false⟩ 1 ("Applied")).1 =
      { success := false, message := noDataMsg } ∧
    noDataMsg ≠ rangeMsg 1 0 := by
  constructor
  · rfl
  · decide

/-- C2 amended: for every canonical table and out-of-range row number n
(n < 1 or n > count), `update_row_status` and `delete_row` fail without
mutating the persisted table; on a non-empty table the failure message
states the valid range 1-count, while on the empty table both fail earlier
with the distinct "No data found in Excel file." message. -/
theorem range_validation_amended (df : DataFrame) (n : Int) (s : String)
    (hcols : df.cols = canonicalCols)
    (hout : n < 1 ∨ n > (df.rows.length : Int)) :
    (df.rows ≠ [] →
       update_row_status ⟨.table df, false⟩ n s =
         ({ success := false, message := rangeMsg n df.rows.length }, ⟨.table df, false⟩) ∧
       delete_row ⟨.table df, false⟩ n =
         ({ success := false, message := rangeMsg n df.rows.length }, ⟨.table df, false⟩)) ∧
    (df.rows = [] →
       update_row_status ⟨.table df, false⟩ n s =
         ({ success := false, message := noDataMsg }, ⟨.table df, false⟩) ∧
       delete_row ⟨.table df, false⟩ n =
         ({ success := false, message := noDataMsg }, ⟨.table df, false⟩)) := by
  have hload := load_ok_canonical df hcols
  constructor
  · intro hne
    have hie : df.rows.isEmpty = false := by
      simpa using hne
    have hcond : (decide (n < 1) || decide (n > (df.rows.length : Int))) = true := by
      rcases hout with h | h <;> simp [h]
    constructor
    · rw [update_row_status]
      simp [is_file_locked, hload, hie, hcond]
    · rw [delete_row]
      simp [is_file_locked, hload, hie, hcond]
  · intro he
    have hie : df.rows.isEmpty = true := by
      simp [he]
    constructor
    · rw [update_row_status]
      simp [is_file_locked, hload, hie]
    · rw [delete_row]
      simp [is_file_locked, hload, hie]

/-- C2 witness for the amended claim: on a one-row table, row number 2 is
rejected with the message stating the valid range 1-1, leaving the state
unchanged. -/
theorem range_validation_amended_witness :
    update_row_status ⟨.table dfAcme, false⟩ 2 ("Rejected") =
      ({ success := false, message := rangeMsg 2 1 }, ⟨.table dfAcme, false⟩) ∧
    delete_row ⟨.table dfAcme, false⟩ 2 =
      ({ success := false, message := rangeMsg 2 1 }, ⟨.table dfAcme, false⟩) := by
  have h := (range_validation_amended dfAcme 2 ("Rejected") rfl (Or.inr (by decide))).1
    (by decide)
  exact h

/-- C8: frame effect of in-range updates and deletes on a canonical table.
`update_row_status n s` succeeds and persists a table where only the
`Status` cell (column 0) of row n is overwritten: rows other than n are
unchanged and the cells of row n other than `Status` are unchanged, with
row order preserved (`List.set`).  `delete_row n` succeeds and persists the
table with exactly row n removed (`List.eraseIdx`): rows before n keep
their contents and positions, rows after n shift down by one in the same
relative order. -/
theorem update_delete_frame (df : DataFrame) (n : Int) (s : String)
    (hcols : df.cols = canonicalCols)
    (h1 : 1 ≤ n) (h2 : n ≤ (df.rows.length : Int)) :
    (update_row_status ⟨.table df, false⟩ n s =
      ({ success := true,
         message := "Row " ++ toString n ++ " status updated to \x27" ++ s ++ "\x27" },
       ⟨.table ⟨canonicalCols,
         df.rows.set (n - 1).toNat ((df.rows.getD (n - 1).toNat []).set 0 s)⟩, false⟩)) ∧
    (∀ i, i ≠ (n - 1).toNat →
      (df.rows.set (n - 1).toNat ((df.rows.getD (n - 1).toNat []).set 0 s)).getD i [] =
        df.rows.getD i []) ∧
    (∀ c, c ≠ 0 →
      ((df.rows.getD (n - 1).toNat []).set 0 s).getD c ("") =
        (df.rows.getD (n - 1).toNat []).getD c ("")) ∧
    (delete_row ⟨.table df, false⟩ n =
      ({ success := true,
         message := "Deleted row " ++ toString n ++ ": " ++
           (df.rows.getD (n - 1).toNat []).getD 1 ("Unknown") ++ " - " ++
           (df.rows.getD (n - 1).toNat []).getD 2 ("Unknown") },
       ⟨.table ⟨canonicalCols, df.rows.eraseIdx (n - 1).toNat⟩, false⟩)) ∧
    (∀ i, i < (n - 1).toNat →
      (df.rows.eraseIdx (n - 1).toNat).getD i [] = df.rows.getD i []) ∧
    (∀ i, (n - 1).toNat ≤ i →
      (df.rows.eraseIdx (n - 1).toNat).getD i [] = df.rows.getD (i + 1) []) := by
  have hload := load_ok_canonical df hcols
  have hne : df.rows ≠ [] := by
    intro h
    rw [h] at h2
    simp at h2
    omega
  have hie : df.rows.isEmpty = false := by
    simpa using hne
  have hcond : (decide (n < 1) || decide (n > (df.rows.length : Int))) = false := by
    simp
    omega
  refine ⟨?_, ?_, ?_, ?_, ?_, ?_⟩
  · rw [update_row_status]
    simp [is_file_locked, hload, hie, hcond, hcols, canonicalCols, colIdx]
  · intro i hi
    exact getD_set_ne df.rows (n - 1).toNat i _ [] hi
  · intro c hc
    exact getD_set_ne (df.rows.getD (n - 1).toNat []) 0 c s ("") hc
  · rw [delete_row]
    simp [is_file_locked, hload, hie, hcond, hcols, canonicalCols, colIdx, seriesGet]
  · intro i hi
    exact getD_eraseIdx_lt df.rows (n - 1).toNat i [] hi
  · intro i hi
    exact getD_eraseIdx_ge df.rows (n - 1).toNat i [] hi

/-- C8 witness: on a concrete two-row table, updating row 1 changes only
its status cell and deleting row 1 leaves row 2 as the sole row. -/
theorem update_delete_frame_witness :
    update_row_status ⟨.table dfTwo, false⟩ 1 ("Interviewed") =
      ({ success := true, message := "Row 1 status updated to \x27Interviewed\x27" },
       ⟨.table ⟨canonicalCols,
         dfTwo.rows.set 0 ((dfTwo.rows.getD 0 []).set 0 ("Interviewed"))⟩, false⟩) ∧
    delete_row ⟨.table dfTwo, false⟩ 1 =
      ({ success := true, message := "Deleted row 1: Acme - Engineer" },
       ⟨.table ⟨canonicalCols, dfTwo.rows.eraseIdx 0⟩, false⟩) := by
  have h := update_delete_frame dfTwo 1 ("Interviewed") rfl (by decide) (by decide)
  exact ⟨h.1, h.2.2.2.1⟩

/-- C9 counterexample: the lock probe is not non-destructive on every
file-system state.  Probing an absent file opens it in append mode, which
creates an empty file: the probe reports unlocked but the resulting state
no longer has the file absent — refuting the claim that `is_file_locked`
leaves every file-system state unchanged and never creates a file. -/
theorem lock_probe_counterexample :
    (is_file_locked ⟨.absent, false⟩).1 = false ∧
    (is_file_locked ⟨.absent, false⟩).2.file ≠ .absent := by
  constructor
  · rfl
  · decide

/-- C9 amended: on an existing file the probe is non-destructive (state
unchanged) and returns true exactly when a write-mode open fails, i.e. the
file is exclusively held; on an absent file it returns false but creates
an empty (unreadable-as-a-table) file.  `wait_for_file_unlock` polls at the
fixed 2-unit interval starting at time 0 and returns true exactly when
some poll instant before `maxWait` finds the file writable; otherwise it
returns false once `maxWait` has elapsed. -/
theorem lock_probe_and_wait_amended :
    (∀ fs : FsState, fs.file ≠ .absent → is_file_locked fs = (fs.locked, fs)) ∧
    (∀ fs : FsState, fs.file = .absent → is_file_locked fs = (false, ⟨.corrupt, fs.locked⟩)) ∧
    (∀ (locked : Nat → Bool) (maxWait : Nat),
        wait_for_file_unlock locked maxWait = true ↔
          ∃ t, t < maxWait ∧ t % 2 = 0 ∧ locked t = false) := by
  refine ⟨?_, ?_, wait_true_iff⟩
  · intro fs hf
    obtain ⟨file, locked⟩ := fs
    cases file with
    | absent => exact absurd rfl hf
    | corrupt => rfl
    | table df => rfl
  · intro fs hf
    obtain ⟨file, locked⟩ := fs
    simp only at hf
    subst hf
    rfl

/-- C9 witness for the amended claim: probing a held existing file reports
locked and leaves the state unchanged, and a 30-second wait against a lock
that clears at time 6 returns true. -/
theorem lock_probe_and_wait_amended_witness :
    is_file_locked ⟨.table emptyDf, true⟩ = (true, ⟨.table emptyDf, true⟩) ∧
    wait_for_file_unlock (fun t => decide (t < 6)) 30 = true := by
  constructor
  · exact lock_probe_and_wait_amended.1 ⟨.table emptyDf, true⟩ (by decide)
  · exact (lock_probe_and_wait_amended.2.2 (fun t => decide (t < 6)) 30).mpr
      ⟨6, by decide, by decide, by decide⟩
